import Mathlib

/-!
Shallow embedding of the survey data-cleaning script `edit_data.py`
(repository kachyna/bp_vse), together with theorems settling the frozen
claims about it.

Python floats are modelled as rationals (`ℚ`), Python ints as `ℤ`/`ℕ`,
strings as `String`, and pandas missing values (`NaN`) as `Option`.
-/

namespace EditData

/-! ## Constants (edit_data.py, lines 27-29) -/

/-- Median equalized income used to define middle-income households. -/
def EQUALIZED_INCOME_MEDIAN : ℚ := 25968

/-- Lower-bound multiplier for the middle-income band. -/
def MIDDLE_INCOME_LOWER_BOUND : ℚ := 0.75

/-- Upper-bound multiplier for the middle-income band. -/
def MIDDLE_INCOME_UPPER_BOUND : ℚ := 2

/-! ## Mapping functions (edit_data.py, lines 35-88) -/

/-- Maps income ranges (string) to average monthly values
    (`getAvgForIncomeRange`, lines 35-44). -/
def getAvgForIncomeRange (i : String) : ℤ :=
  if i = "< 20 000 Kč" then 10000
  else if i = "20 000 Kč – 30 000 Kč" then 25000
  else if i = "30 000 Kč – 40 000 Kč" then 35000
  else if i = "40 000 Kč – 50 000 Kč" then 45000
  else if i = "50 000 Kč – 70 000 Kč" then 60000
  else if i = "70 000 Kč – 90 000 Kč" then 80000
  else if i = "90 000 Kč – 120 000 Kč" then 105000
  else 140000

/-- Maps savings range to estimated numeric value
    (`getAvgForSavingRange`, lines 47-54). -/
def getAvgForSavingRange (i : String) : ℤ :=
  if i = "Vytváříme deficit (výdaje znatelně převyšují příjmy)" then -1000
  else if i = "Nespoříme (výdaje se přibližně rovnají příjmům, ± 500 Kč)" then 0
  else if i = "500 až 1 000 Kč" then 750
  else if i = "1000 až 3 000 Kč" then 2000
  else if i = "3 000 až 5 000 Kč" then 4000
  else if i = "5 000 až 7 000 Kč" then 6000
  else 9000

/-- Maps decision-making strategy for big financial decisions
    (`decisionStrategyMapping`, lines 76-80). -/
def decisionStrategyMapping (i : String) : ℤ :=
  if i = "Dělám rychlá rozhodnutí na základě prvních dojmů" then 3
  else if i = "Rozhoduji se uvážlivě, ale nepotřebuji dlouhou dobu" then 1
  else if i = "Zřídka (jen pokud je to nezbytné)" then 0
  else 2

/-! ## Point fixes and the yes/no recode (edit_data.py, lines 161-166) -/

/-- The household-adult-count fix: `df["household_members_gt13"].replace(0, 1)`
    (line 162) applied to a single cell value. -/
def fixAdults (x : ℚ) : ℚ := if x = 0 then 1 else x

/-- A pandas cell value that may hold either a string or an integer
    (after `replace("Ano", 1)` the column mixes both). -/
inductive CellVal where
  | str (s : String)
  | int (n : ℤ)
deriving DecidableEq

/-- `Series.replace(old, new)` on a single cell: substitute the exact
    value `old` by `new`, leave every other value unchanged. -/
def replaceVal (old new v : CellVal) : CellVal := if v = old then new else v

/-- The yes/no recode of `is_investing_time_consuming` (lines 165-166):
    `replace("Ano", 1)` followed by `replace("Ne", 0)`. -/
def recodeTimeConsuming (v : CellVal) : CellVal :=
  replaceVal (CellVal.str "Ne") (CellVal.int 0)
    (replaceVal (CellVal.str "Ano") (CellVal.int 1) v)

/-! ## Derived metrics (edit_data.py, lines 180-188) -/

/-- Consumption unit based on the OECD method (line 180):
    `1 + 0.5 * (household_members_gt13 - 1) + 0.3 * household_members_le13`. -/
def cons_unit (adults children : ℚ) : ℚ := 1 + 0.5 * (adults - 1) + 0.3 * children

/-- Equalized household income (line 183): `avg_income / cons_unit`. -/
def eq_hs_income (avg cu : ℚ) : ℚ := avg / cu

/-- Middle-income flag (lines 186-188):
    `1 if x > MIDDLE_INCOME_LOWER_BOUND * EQUALIZED_INCOME_MEDIAN and
    x < 2 * MIDDLE_INCOME_UPPER_BOUND * EQUALIZED_INCOME_MEDIAN else 0`. -/
def is_middle_income (x : ℚ) : ℤ :=
  if MIDDLE_INCOME_LOWER_BOUND * EQUALIZED_INCOME_MEDIAN < x ∧
      x < 2 * MIDDLE_INCOME_UPPER_BOUND * EQUALIZED_INCOME_MEDIAN then 1 else 0

/-! ## Multi-choice expansion (edit_data.py, lines 93-99)

A row of the data frame, restricted to what `splitMultipleChoice` reads:
the respondent identifier `id` (line 121: index + 1) and the multi-select
cell, a semicolon-delimited string or a pandas missing value (`none`). -/

/-- A data-frame row as seen by `splitMultipleChoice`. -/
structure Row where
  id : Nat
  cell : Option String
deriving DecidableEq

/-- Python's `str.split(sep)` for a one-character separator, accumulating
    the characters of the current fragment in reverse. -/
def pySplitAux (sep : Char) : List Char → List Char → List String
  | [], acc => [String.mk acc.reverse]
  | c :: cs, acc =>
    if c = sep then String.mk acc.reverse :: pySplitAux sep cs []
    else pySplitAux sep cs (c :: acc)

/-- Python's `str.split(sep)` on a whole string. -/
def pySplit (sep : Char) (s : String) : List String := pySplitAux sep s.data []

/-- Line 95: `dataframe[col].str.split(";")` on one cell; a missing cell
    stays missing. -/
def splitCell (c : Option String) : Option (List String) := c.map (pySplit ';')

/-- `DataFrame.explode` (line 96) on one row of the split column: a missing
    cell or an empty list yields a single entry with a missing value,
    otherwise one entry per list element, each tagged with the row's id. -/
def explodeCell (i : Nat) (c : Option (List String)) : List (Nat × Option String) :=
  match c with
  | none => [(i, none)]
  | some [] => [(i, none)]
  | some (v :: vs) => (v :: vs).map (fun w => (i, some w))

/-- The whole exploded column (line 96), in row order. -/
def explodeCol (rows : List Row) : List (Nat × Option String) :=
  rows.flatMap (fun r => explodeCell r.id (splitCell r.cell))

/-- The column set of `pd.get_dummies` (line 97): the distinct non-missing
    values of the exploded column (as a list; `get_dummies` sorts them, but
    only the set matters here). -/
def dummyValues (ex : List (Nat × Option String)) : List String :=
  (ex.filterMap (fun p => p.2)).dedup

/-- One row of `dummies.groupby(dataframe["id"]).sum()` (line 98): for the
    group of id `i`, the dummy column for value `v` sums to the number of
    exploded entries `(i, v)`. -/
def groupSumRow (ex : List (Nat × Option String)) (cols : List String) (i : Nat) :
    List (String × Nat) :=
  cols.map (fun v => (v, ex.count (i, some v)))

/-- The index of `binary_matrix` (line 98): the distinct group keys. -/
def matrixIds (ex : List (Nat × Option String)) : List Nat :=
  (ex.map (fun p => p.1)).dedup

/-- Line 99: `dataframe.merge(binary_matrix, left_on="id", right_index=True)`,
    an inner merge — a row is kept (paired with its indicator row) exactly
    when its id occurs in the matrix index, in left-row order. -/
def splitMultipleChoice (rows : List Row) : List (Row × List (String × Nat)) :=
  let ex := explodeCol rows
  let cols := dummyValues ex
  rows.filterMap (fun r =>
    if r.id ∈ matrixIds ex then some (r, groupSumRow ex cols r.id) else none)

/-! ## Main-script control flow (edit_data.py, lines 105-260) -/

/-- An externally observable effect of the main script. -/
inductive Effect where
  | printed (msg : String)
  | copiedFile (src dst : String)
  | readCsv (path : String)
  | transformed
  | wroteCsv (path : String)
deriving DecidableEq

/-- `os.path.join` for a directory and a file name. -/
def joinPath (dir file : String) : String := dir ++ "/" ++ file

/-- The sequence of observable effects of the main script (lines 105-260),
    as a function of whether the supplied path exists: if not, print and
    terminate; otherwise copy the input to `backup_<filename>` in the same
    directory, print, read the CSV, run the transformation steps, and write
    `out.csv` next to the input. -/
def mainTrace (fileExists : Bool) (directory filename file_path : String) :
    List Effect :=
  if fileExists = false then
    [Effect.printed "File does not exist."]
  else
    [Effect.copiedFile file_path (joinPath directory ("backup_" ++ filename)),
     Effect.printed ("Created a backup: " ++ joinPath directory ("backup_" ++ filename)),
     Effect.readCsv file_path,
     Effect.transformed,
     Effect.wroteCsv (joinPath directory "out.csv"),
     Effect.printed ("Data saved to " ++ joinPath directory "out.csv")]

end EditData

namespace EditData

/-! ## Theorems for the claims -/

/-- C1: with the reference median fixed at 25968, the middle-income flag is 0
    at exactly `0.75 × 25968` (strict lower comparison), 1 strictly between
    `0.75 × 25968` and `4 × 25968`, and 0 at or above `4 × 25968 = 103872`,
    the upper bound being `2 × MIDDLE_INCOME_UPPER_BOUND × median`. -/
theorem is_middle_income_bounds :
    is_middle_income (0.75 * 25968) = 0 ∧
    (∀ x : ℚ, 0.75 * 25968 < x → x < 4 * 25968 → is_middle_income x = 1) ∧
    (∀ x : ℚ, 4 * 25968 ≤ x → is_middle_income x = 0) ∧
    2 * MIDDLE_INCOME_UPPER_BOUND * EQUALIZED_INCOME_MEDIAN = 103872 := by
  refine ⟨?_, ?_, ?_, ?_⟩
  · norm_num [is_middle_income, MIDDLE_INCOME_LOWER_BOUND,
      MIDDLE_INCOME_UPPER_BOUND, EQUALIZED_INCOME_MEDIAN]
  · intro x h1 h2
    rw [is_middle_income, if_pos]
    constructor
    · norm_num [MIDDLE_INCOME_LOWER_BOUND, EQUALIZED_INCOME_MEDIAN] at h1 ⊢
      linarith
    · norm_num [MIDDLE_INCOME_UPPER_BOUND, EQUALIZED_INCOME_MEDIAN] at h2 ⊢
      linarith
  · intro x h
    rw [is_middle_income, if_neg]
    rintro ⟨-, h2⟩
    norm_num [MIDDLE_INCOME_UPPER_BOUND, EQUALIZED_INCOME_MEDIAN] at h2
    linarith
  · norm_num [MIDDLE_INCOME_UPPER_BOUND, EQUALIZED_INCOME_MEDIAN]

/-- Witness for C1 at concrete points: 20000 lies strictly inside the band
    and 103872 is at the upper bound. -/
theorem is_middle_income_bounds_witness :
    is_middle_income 20000 = 1 ∧ is_middle_income 103872 = 0 := by
  constructor
  · exact is_middle_income_bounds.2.1 20000 (by norm_num) (by norm_num)
  · exact is_middle_income_bounds.2.2.1 103872 (by norm_num)

/-- C2 counterexample: at `x = 0.75 × 25968 = 19476` the claimed equivalence
    `flag = 1 ↔ 0.75×median ≤ x < 4×median` fails — the band condition holds
    with equality on the left, yet the code classifies the value as 0,
    because the code's lower comparison is strict. -/
theorem is_middle_income_iff_le_counterexample :
    ¬ (is_middle_income (0.75 * EQUALIZED_INCOME_MEDIAN) = 1 ↔
        (0.75 * EQUALIZED_INCOME_MEDIAN ≤ 0.75 * EQUALIZED_INCOME_MEDIAN ∧
         0.75 * EQUALIZED_INCOME_MEDIAN < 4 * EQUALIZED_INCOME_MEDIAN)) := by
  intro h
  have h1 : is_middle_income (0.75 * EQUALIZED_INCOME_MEDIAN) = 1 := by
    refine h.mpr ⟨le_refl _, ?_⟩
    norm_num [EQUALIZED_INCOME_MEDIAN]
  have h0 : is_middle_income (0.75 * EQUALIZED_INCOME_MEDIAN) = 0 := by
    norm_num [is_middle_income, MIDDLE_INCOME_LOWER_BOUND,
      MIDDLE_INCOME_UPPER_BOUND, EQUALIZED_INCOME_MEDIAN]
  rw [h1] at h0
  exact one_ne_zero h0

/-- C2 amended: the middle-income flag equals 1 iff
    `0.75 × median < x < 4 × median`, with the lower comparison strict, so
    `x` exactly equal to `0.75 × median` is classified 0. -/
theorem is_middle_income_iff :
    (∀ x : ℚ, is_middle_income x = 1 ↔
      (0.75 * EQUALIZED_INCOME_MEDIAN < x ∧ x < 4 * EQUALIZED_INCOME_MEDIAN)) ∧
    is_middle_income (0.75 * EQUALIZED_INCOME_MEDIAN) = 0 := by
  constructor
  · intro x
    rw [is_middle_income]
    have hb : 2 * MIDDLE_INCOME_UPPER_BOUND * EQUALIZED_INCOME_MEDIAN =
        4 * EQUALIZED_INCOME_MEDIAN := by
      norm_num [MIDDLE_INCOME_UPPER_BOUND]
    rw [MIDDLE_INCOME_LOWER_BOUND, hb]
    split
    · next h => exact iff_of_true rfl h
    · next h => exact iff_of_false (by norm_num) h
  · norm_num [is_middle_income, MIDDLE_INCOME_LOWER_BOUND,
      MIDDLE_INCOME_UPPER_BOUND, EQUALIZED_INCOME_MEDIAN]

/-- Witness for C2's amended equivalence at the concrete value 20000, which
    lies strictly inside the band. -/
theorem is_middle_income_iff_witness :
    is_middle_income 20000 = 1 ↔
      (0.75 * EQUALIZED_INCOME_MEDIAN < 20000 ∧
       (20000 : ℚ) < 4 * EQUALIZED_INCOME_MEDIAN) :=
  is_middle_income_iff.1 20000

/-- C4: the consumption-unit value is `1 + 0.5 × (a − 1) + 0.3 × k`; it equals
    1.0 at `(a=1, k=0)` and 2.6 at `(a=3, k=2)`, and the adult term
    `1 + 0.5 × (a − 1)` is never below 1 when `a ≥ 1`. -/
theorem cons_unit_spec :
    (∀ a k : ℚ, cons_unit a k = 1 + 0.5 * (a - 1) + 0.3 * k) ∧
    cons_unit 1 0 = 1 ∧ cons_unit 3 2 = 2.6 ∧
    (∀ a : ℚ, 1 ≤ a → (1 : ℚ) ≤ 1 + 0.5 * (a - 1)) := by
  refine ⟨fun a k => rfl, by norm_num [cons_unit], by norm_num [cons_unit], ?_⟩
  intro a ha
  nlinarith

/-- Witness for C4's hypothesis `1 ≤ a` at `a = 3`. -/
theorem cons_unit_spec_witness : (1 : ℚ) ≤ 1 + 0.5 * (3 - 1) := by
  have h := cons_unit_spec.2.2.2 3 (by norm_num)
  exact h

/-- C5: the end-to-end scenario — income range "20 000 Kč – 30 000 Kč",
    0 household members over 13 and 1 member of at most 13 — yields corrected
    adults 1, avg_income 25000, cons_unit 1.3, equalized income
    `25000 / 1.3 = 250000/13 ≈ 19230.77`, which is below
    `0.75 × 25968 = 19476`, so the middle-income flag is 0. -/
theorem end_to_end_scenario :
    fixAdults 0 = 1 ∧
    getAvgForIncomeRange "20 000 Kč – 30 000 Kč" = 25000 ∧
    cons_unit (fixAdults 0) 1 = 1.3 ∧
    eq_hs_income 25000 (cons_unit (fixAdults 0) 1) = 250000 / 13 ∧
    (250000 / 13 : ℚ) < 0.75 * 25968 ∧
    is_middle_income (eq_hs_income 25000 (cons_unit (fixAdults 0) 1)) = 0 := by
  refine ⟨rfl, by decide, ?_, ?_, by norm_num, ?_⟩
  · norm_num [cons_unit, fixAdults]
  · norm_num [eq_hs_income, cons_unit, fixAdults]
  · norm_num [is_middle_income, eq_hs_income, cons_unit, fixAdults,
      MIDDLE_INCOME_LOWER_BOUND, MIDDLE_INCOME_UPPER_BOUND, EQUALIZED_INCOME_MEDIAN]

/-- C6: each explicitly listed savings-bracket string maps to its documented
    constant; every other string — the open top bracket and any unmatched or
    missing value alike — maps to the fallback 9000; and the function is total,
    its result always one of the seven documented constants. -/
theorem getAvgForSavingRange_spec :
    getAvgForSavingRange "Vytváříme deficit (výdaje znatelně převyšují příjmy)" = -1000 ∧
    getAvgForSavingRange "Nespoříme (výdaje se přibližně rovnají příjmům, ± 500 Kč)" = 0 ∧
    getAvgForSavingRange "500 až 1 000 Kč" = 750 ∧
    getAvgForSavingRange "1000 až 3 000 Kč" = 2000 ∧
    getAvgForSavingRange "3 000 až 5 000 Kč" = 4000 ∧
    getAvgForSavingRange "5 000 až 7 000 Kč" = 6000 ∧
    (∀ s : String,
      s ∉ ["Vytváříme deficit (výdaje znatelně převyšují příjmy)",
           "Nespoříme (výdaje se přibližně rovnají příjmům, ± 500 Kč)",
           "500 až 1 000 Kč", "1000 až 3 000 Kč", "3 000 až 5 000 Kč",
           "5 000 až 7 000 Kč"] → getAvgForSavingRange s = 9000) ∧
    (∀ s : String, getAvgForSavingRange s ∈
      ([-1000, 0, 750, 2000, 4000, 6000, 9000] : List ℤ)) := by
  refine ⟨by decide, by decide, by decide, by decide, by decide, by decide, ?_, ?_⟩
  · intro s hs
    simp only [List.mem_cons, List.not_mem_nil, or_false, not_or] at hs
    obtain ⟨h1, h2, h3, h4, h5, h6⟩ := hs
    simp [getAvgForSavingRange, h1, h2, h3, h4, h5, h6]
  · intro s
    unfold getAvgForSavingRange
    split
    · decide
    split
    · decide
    split
    · decide
    split
    · decide
    split
    · decide
    split
    · decide
    · decide

/-- Witness for C6's fallback hypothesis at the concrete unmatched string
    "7 000 Kč a více". -/
theorem getAvgForSavingRange_spec_witness :
    getAvgForSavingRange "7 000 Kč a více" = 9000 := by
  exact getAvgForSavingRange_spec.2.2.2.2.2.2.1 "7 000 Kč a více" (by decide)

/-- C7: the household-adult-count fix maps 0 to 1, leaves every other value
    unchanged, and is idempotent: `fixAdults (fixAdults x) = fixAdults x`. -/
theorem fixAdults_spec :
    fixAdults 0 = 1 ∧ (∀ x : ℚ, x ≠ 0 → fixAdults x = x) ∧
    fixAdults 1 = 1 ∧ (∀ x : ℚ, fixAdults (fixAdults x) = fixAdults x) := by
  refine ⟨rfl, ?_, ?_, ?_⟩
  · intro x hx
    simp [fixAdults, hx]
  · norm_num [fixAdults]
  · intro x
    by_cases hx : x = 0
    · subst hx
      norm_num [fixAdults]
    · simp [fixAdults, hx]

/-- Witness for C7's hypothesis `x ≠ 0` at `x = 5`. -/
theorem fixAdults_spec_witness : fixAdults 5 = 5 :=
  fixAdults_spec.2.1 5 (by norm_num)

/-- C9: every input other than the two decision-strategy answers mapped to
    3 and 1 gets the default mid-scale code 2 — except the string
    "Zřídka (jen pokud je to nezbytné)" (a risk-encounter-frequency answer),
    which gets 0. -/
theorem decisionStrategyMapping_spec :
    decisionStrategyMapping "Dělám rychlá rozhodnutí na základě prvních dojmů" = 3 ∧
    decisionStrategyMapping "Rozhoduji se uvážlivě, ale nepotřebuji dlouhou dobu" = 1 ∧
    decisionStrategyMapping "Zřídka (jen pokud je to nezbytné)" = 0 ∧
    (∀ s : String,
      s ∉ ["Dělám rychlá rozhodnutí na základě prvních dojmů",
           "Rozhoduji se uvážlivě, ale nepotřebuji dlouhou dobu",
           "Zřídka (jen pokud je to nezbytné)"] →
      decisionStrategyMapping s = 2) := by
  refine ⟨by decide, by decide, by decide, ?_⟩
  intro s hs
  simp only [List.mem_cons, List.not_mem_nil, or_false, not_or] at hs
  obtain ⟨h1, h2, h3⟩ := hs
  simp [decisionStrategyMapping, h1, h2, h3]

/-- Witness for C9's hypothesis at the concrete unlisted string "Ano". -/
theorem decisionStrategyMapping_spec_witness : decisionStrategyMapping "Ano" = 2 :=
  decisionStrategyMapping_spec.2.2.2 "Ano" (by decide)

/-- C10: the yes/no recoding of `is_investing_time_consuming` is a
    substitution, not a total mapping with a default: "Ano" becomes 1,
    "Ne" becomes 0, and every other cell value passes through unchanged. -/
theorem recodeTimeConsuming_spec :
    recodeTimeConsuming (CellVal.str "Ano") = CellVal.int 1 ∧
    recodeTimeConsuming (CellVal.str "Ne") = CellVal.int 0 ∧
    (∀ v : CellVal, v ≠ CellVal.str "Ano" → v ≠ CellVal.str "Ne" →
      recodeTimeConsuming v = v) := by
  refine ⟨by decide, by decide, ?_⟩
  intro v h1 h2
  simp [recodeTimeConsuming, replaceVal, h1, h2]

/-- Witness for C10's hypotheses at the concrete cell value "Nevím". -/
theorem recodeTimeConsuming_spec_witness :
    recodeTimeConsuming (CellVal.str "Nevím") = CellVal.str "Nevím" :=
  recodeTimeConsuming_spec.2.2 (CellVal.str "Nevím") (by decide) (by decide)

/-! ### Helper lemmas for the multi-choice expansion -/

/-- Every entry produced by `explodeCell` carries the row's id. -/
theorem fst_of_mem_explodeCell {i : Nat} {c : Option (List String)}
    {p : Nat × Option String} (hp : p ∈ explodeCell i c) : p.1 = i := by
  rcases c with _ | (_ | ⟨v, vs⟩)
  · rw [explodeCell, List.mem_singleton] at hp
    rw [hp]
  · rw [explodeCell, List.mem_singleton] at hp
    rw [hp]
  · rw [explodeCell, List.mem_map] at hp
    obtain ⟨w, -, hw⟩ := hp
    rw [← hw]

/-- `explodeCell` never produces an empty list: even a missing or empty cell
    contributes one (missing-valued) entry. -/
theorem explodeCell_ne_nil (i : Nat) (c : Option (List String)) :
    explodeCell i c ≠ [] := by
  rcases c with _ | (_ | ⟨v, vs⟩) <;> simp [explodeCell]

/-- When a cell splits to the selection list `S r` (missing iff the selection
    is empty), its exploded entries are one missing-valued entry for an empty
    selection, and one entry per selected value otherwise. -/
theorem explodeCell_eq_of_split {r : Row} {S : Row → List String}
    (h : splitCell r.cell = if S r = [] then none else some (S r)) :
    explodeCell r.id (splitCell r.cell) =
      if S r = [] then [(r.id, none)]
      else (S r).map (fun w => (r.id, some w)) := by
  rw [h]
  by_cases hS : S r = []
  · rw [if_pos hS, if_pos hS]
    rfl
  · rw [if_neg hS, if_neg hS]
    obtain ⟨v, vs, hE⟩ := List.exists_cons_of_ne_nil hS
    rw [hE]
    rfl

/-- The first component of any exploded entry is an id of some input row. -/
theorem fst_of_mem_explodeCol {rows : List Row} {p : Nat × Option String}
    (hp : p ∈ explodeCol rows) : p.1 ∈ rows.map Row.id := by
  rw [explodeCol, List.mem_flatMap] at hp
  obtain ⟨r, hr, hpr⟩ := hp
  rw [fst_of_mem_explodeCell hpr]
  exact List.mem_map_of_mem Row.id hr

/-- Counting an exploded pair among the entries of one row: with a
    duplicate-free selection list the count is the 0/1 indicator. -/
theorem count_pair_map (i : Nat) (v : String) (l : List String) (hnd : l.Nodup) :
    List.count (i, some v) (l.map fun w => (i, some w)) = if v ∈ l then 1 else 0 := by
  induction l with
  | nil => simp
  | cons a l ih =>
    rw [List.nodup_cons] at hnd
    rw [List.map_cons, List.count_cons, ih hnd.2]
    by_cases hav : a = v
    · subst hav
      simp [hnd.1]
    · have h1 : (((i, some a) : Nat × Option String) == (i, some v)) = false := by
        simp [hav]
      have h2 : ¬ v = a := fun h => hav h.symm
      rw [h1]
      simp [List.mem_cons, h2]

/-- With distinct row ids, a duplicate-free selection list and a faithfully
    split cell, the group sum of the dummy column `v` for row `r` counts the
    exploded pair `(r.id, v)` exactly once if `r` selected `v`, else zero. -/
theorem count_explodeCol (rows : List Row) (S : Row → List String) (r : Row)
    (v : String) (hid : (rows.map Row.id).Nodup) (hr : r ∈ rows)
    (hc : splitCell r.cell = if S r = [] then none else some (S r))
    (hnd : (S r).Nodup) :
    (explodeCol rows).count (r.id, some v) = if v ∈ S r then 1 else 0 := by
  induction rows with
  | nil => exact absurd hr (List.not_mem_nil r)
  | cons a l ih =>
    rw [explodeCol, List.flatMap_cons, ← explodeCol, List.count_append]
    rw [List.map_cons, List.nodup_cons] at hid
    rcases List.mem_cons.mp hr with rfl | hr2
    · have hhead : (explodeCell r.id (splitCell r.cell)).count (r.id, some v) =
          if v ∈ S r then 1 else 0 := by
        rw [explodeCell_eq_of_split hc]
        by_cases hS : S r = []
        · rw [if_pos hS, hS]
          simp [List.count_cons]
        · rw [if_neg hS]
          exact count_pair_map r.id v (S r) hnd
      have hrest : (explodeCol l).count (r.id, some v) = 0 := by
        rw [List.count_eq_zero]
        intro hmem
        exact hid.1 (fst_of_mem_explodeCol hmem)
      rw [hhead, hrest, Nat.add_zero]
    · have hhead : (explodeCell a.id (splitCell a.cell)).count (r.id, some v) = 0 := by
        rw [List.count_eq_zero]
        intro hmem
        have hfst : r.id = a.id := fst_of_mem_explodeCell hmem
        exact hid.1 (hfst ▸ List.mem_map_of_mem Row.id hr2)
      rw [hhead, ih hid.2 hr2, Nat.zero_add]

/-- The dummy column set is exactly the union of the respondents'
    selection sets. -/
theorem mem_dummyValues (rows : List Row) (S : Row → List String)
    (hcell : ∀ r ∈ rows, splitCell r.cell = if S r = [] then none else some (S r))
    (v : String) :
    v ∈ dummyValues (explodeCol rows) ↔ ∃ r ∈ rows, v ∈ S r := by
  rw [dummyValues, List.mem_dedup, List.mem_filterMap]
  constructor
  · rintro ⟨p, hp, hp2⟩
    rw [explodeCol, List.mem_flatMap] at hp
    obtain ⟨r, hr, hpr⟩ := hp
    rw [explodeCell_eq_of_split (hcell r hr)] at hpr
    by_cases hS : S r = []
    · rw [if_pos hS, List.mem_singleton] at hpr
      rw [hpr] at hp2
      exact absurd hp2 (by simp)
    · rw [if_neg hS, List.mem_map] at hpr
      obtain ⟨w, hw, hwp⟩ := hpr
      have hwv : w = v := by
        have : some w = some v := by
          rw [← hp2, ← hwp]
        exact Option.some_inj.mp this
      exact ⟨r, hr, hwv ▸ hw⟩
  · rintro ⟨r, hr, hv⟩
    refine ⟨(r.id, some v), ?_, rfl⟩
    rw [explodeCol, List.mem_flatMap]
    refine ⟨r, hr, ?_⟩
    have hS : S r ≠ [] := by
      intro h
      rw [h] at hv
      exact (List.not_mem_nil v) hv
    rw [explodeCell_eq_of_split (hcell r hr), if_neg hS, List.mem_map]
    exact ⟨v, hv, rfl⟩

/-- A `filterMap` whose guard holds on every element is a `map`. -/
theorem filterMap_ite_eq_map {α β : Type} (l : List α) (g : α → β) (c : α → Prop)
    [DecidablePred c] (h : ∀ a ∈ l, c a) :
    (l.filterMap fun a => if c a then some (g a) else none) = l.map g := by
  induction l with
  | nil => rfl
  | cons a l ih =>
    have hca : c a := h a (List.mem_cons_self a l)
    simp only [List.filterMap_cons, if_pos hca, List.map_cons]
    rw [ih fun b hb => h b (List.mem_cons_of_mem a hb)]

/-- Every input row's id occurs in the merge index: each row contributes at
    least one exploded entry. -/
theorem id_mem_matrixIds {rows : List Row} {r : Row} (hr : r ∈ rows) :
    r.id ∈ matrixIds (explodeCol rows) := by
  rw [matrixIds, List.mem_dedup, List.mem_map]
  obtain ⟨p, hp⟩ :=
    List.exists_mem_of_ne_nil _ (explodeCell_ne_nil r.id (splitCell r.cell))
  refine ⟨p, ?_, fst_of_mem_explodeCell hp⟩
  rw [explodeCol, List.mem_flatMap]
  exact ⟨r, hr, hp⟩

/-- C3: for a batch of respondents with distinct ids, each selecting a
    duplicate-free subset `S_i` (cell missing iff the selection is empty,
    otherwise splitting to exactly `S_i`), `splitMultipleChoice` produces one
    indicator column per distinct value in the union of the `S_i`; every
    respondent keeps exactly one row, in order; and the indicator of choice
    `c` for respondent `i` is 1 if `c ∈ S_i` and 0 otherwise, so respondents
    with a missing cell get all-zero indicators. -/
theorem splitMultipleChoice_spec (rows : List Row) (S : Row → List String)
    (hid : (rows.map Row.id).Nodup)
    (hnd : ∀ r ∈ rows, (S r).Nodup)
    (hcell : ∀ r ∈ rows, splitCell r.cell = if S r = [] then none else some (S r)) :
    splitMultipleChoice rows =
      rows.map (fun r => (r, (dummyValues (explodeCol rows)).map
        (fun v => (v, if v ∈ S r then 1 else 0)))) ∧
    (∀ v : String, v ∈ dummyValues (explodeCol rows) ↔ ∃ r ∈ rows, v ∈ S r) ∧
    (splitMultipleChoice rows).length = rows.length := by
  have h1 : splitMultipleChoice rows = rows.map (fun r =>
      (r, groupSumRow (explodeCol rows) (dummyValues (explodeCol rows)) r.id)) :=
    filterMap_ite_eq_map rows _ _ (fun r hr => id_mem_matrixIds hr)
  have hmain : splitMultipleChoice rows =
      rows.map (fun r => (r, (dummyValues (explodeCol rows)).map
        (fun v => (v, if v ∈ S r then 1 else 0)))) := by
    rw [h1]
    refine List.map_congr_left fun r hr => ?_
    refine congrArg (Prod.mk r) ?_
    rw [groupSumRow]
    refine List.map_congr_left fun v _ => ?_
    rw [count_explodeCol rows S r v hid hr (hcell r hr) (hnd r hr)]
  exact ⟨hmain, fun v => mem_dummyValues rows S hcell v,
    by rw [hmain, List.length_map]⟩

/-- A concrete three-respondent batch: respondent 1 selects two choices,
    respondent 2 selects nothing (missing cell), respondent 3 selects one. -/
def sampleRows : List Row :=
  [⟨1, some "Akcie;Dluhopisy"⟩, ⟨2, none⟩, ⟨3, some "Dluhopisy"⟩]

/-- The per-respondent selection sets of `sampleRows`, read off their cells. -/
def sampleS (r : Row) : List String := (splitCell r.cell).getD []

/-- Witness for C3 on `sampleRows`: all hypotheses hold there, the merged
    table keeps its three rows, and the columns are the union of selections. -/
theorem splitMultipleChoice_spec_witness :
    (splitMultipleChoice sampleRows).length = 3 ∧
    (∀ v : String, v ∈ dummyValues (explodeCol sampleRows) ↔
      ∃ r ∈ sampleRows, v ∈ sampleS r) := by
  have h := splitMultipleChoice_spec sampleRows sampleS
    (by decide) (by decide) (by decide)
  exact ⟨h.2.2.trans rfl, h.2.1⟩

/-- C8: when the supplied path does not exist the script only reports to the
    console and terminates — no file is copied and no output is written;
    when it exists, the very first effect is copying the input to
    `backup_<filename>` in the same directory, before the CSV is even read
    and before any transformation step runs. -/
theorem mainTrace_spec (d f p : String) :
    mainTrace false d f p = [Effect.printed "File does not exist."] ∧
    (∀ s t : String, Effect.copiedFile s t ∉ mainTrace false d f p) ∧
    (∀ s : String, Effect.wroteCsv s ∉ mainTrace false d f p) ∧
    (mainTrace true d f p).head? =
      some (Effect.copiedFile p (joinPath d ("backup_" ++ f))) ∧
    Effect.transformed ∈ mainTrace true d f p ∧
    Effect.readCsv p ∈ mainTrace true d f p ∧
    Effect.wroteCsv (joinPath d "out.csv") ∈ mainTrace true d f p := by
  refine ⟨rfl, ?_, ?_, rfl, ?_, ?_, ?_⟩ <;> simp [mainTrace]

/-- Witness for C8 at a concrete directory and file name. -/
theorem mainTrace_spec_witness :
    mainTrace false "data" "survey.csv" "data/survey.csv" =
      [Effect.printed "File does not exist."] ∧
    (mainTrace true "data" "survey.csv" "data/survey.csv").head? =
      some (Effect.copiedFile "data/survey.csv"
        (joinPath "data" ("backup_" ++ "survey.csv"))) :=
  ⟨(mainTrace_spec "data" "survey.csv" "data/survey.csv").1,
   (mainTrace_spec "data" "survey.csv" "data/survey.csv").2.2.2.1⟩

end EditData
